import Mathlib

/-!
Verification of the user routes of the lexitrail backend
(`src/backend/app/routes/users.py`) and test-harness cleanup
(`src/backend/tests/utils.py`), shallowly embedded in Lean 4.

The `User` table has a single column, the primary key `email`; its state is
a list of row emails. Each Flask handler is a pure function from its inputs
and the database state to a JSON response and the resulting database state.
Handlers that read `request.json` unconditionally may raise an uncaught
Python exception (`KeyError`/`TypeError`), modelled by `Except Unit`.
-/

/-- A JSON value, as produced by `jsonify`. -/
inductive Json where
  | str : String → Json
  | arr : List Json → Json
  | obj : List (String × Json) → Json
deriving Repr

/-- An HTTP response: status code plus JSON body.  `jsonify(x)` with no
explicit code carries the framework default status 200. -/
structure Response where
  status : Nat
  body : Json
deriving Repr

/-- The `User` table: one row per user, the row being its `email`
primary-key value. -/
structure DB where
  users : List String
deriving Repr

/-- The JSON body of a request: `none` when `request.json` is not a JSON object,
otherwise the string-valued fields of the object. -/
abbrev ReqBody := Option (List (String × String))

/-- Reading the "email" field of the body: `none` models the uncaught Python exception
(`TypeError` on a non-object, `KeyError` on a missing key). -/
def bodyEmail (body : ReqBody) : Option String :=
  match body with
  | none => none
  | some data => (data.find? (fun kv => kv.1 == "email")).map (·.2)

/-- Row lookup, both `filter_by(email=e).first()` and `session.get(User, e)`:
the first row whose `email` equals `e`, if any. -/
def findUser (db : DB) (e : String) : Option String :=
  db.users.find? (fun u => u == e)

/-- The ORM mutation of `update_user`: the fetched row (the first one whose
`email` is `old`) has its `email` field overwritten with `new`. -/
def replaceFirst : List String → String → String → List String
  | [], _, _ => []
  | x :: xs, old, new =>
    if x == old then new :: xs else x :: replaceFirst xs old new

/-- Modelled from the spec: `validate_user_access` lives in `app/utils.py`,
which is not part of the sources at hand; §4.2 of the spec defines its
contract: given the target `email` path parameter and the authenticated
context, it returns a 403 rejection response if they differ, else returns
nothing (`None`, the signal to proceed). -/
def validate_user_access (authEmail pathEmail : String) : Option Response :=
  if authEmail != pathEmail then
    some { status := 403, body := .obj [("message", .str "Unauthorized")] }
  else
    none

/-- Handler `create_user` (`POST /users`): 403 unless the body email equals the
authenticated email; 200 "already exists" when a row with that email
exists; otherwise inserts the row, commits and returns 201. -/
def create_user (authEmail : String) (body : ReqBody) (db : DB) :
    Except Unit (Response × DB) :=
  match bodyEmail body with
  | none => .error ()
  | some dataEmail =>
    if authEmail != dataEmail then
      .ok ({ status := 403,
             body := .obj
               [("message", .str "Unauthorized: You can only create yourself")] },
           db)
    else if (findUser db dataEmail).isSome then
      .ok ({ status := 200, body := .obj [("message", .str "User already exists")] },
           db)
    else
      .ok ({ status := 201,
             body := .obj [("message", .str "User created successfully")] },
           { users := db.users ++ [dataEmail] })

/-- Handler `get_user` (`GET /users/<email>`): ownership check, then 404 if the row
is absent, else `{email}` with status 200. -/
def get_user (authEmail pathEmail : String) (db : DB) : Response × DB :=
  match validate_user_access authEmail pathEmail with
  | some r => (r, db)
  | none =>
    match findUser db pathEmail with
    | none =>
      ({ status := 404,
         body := .obj [("message", .str "User not found"), ("email", .str pathEmail)] },
       db)
    | some u => ({ status := 200, body := .obj [("email", .str u)] }, db)

/-- Handler `update_user` (`PUT /users/<email>`): ownership check, then 404 if the
row is absent; only then is the body "email" field read (raising when missing);
the `email` field of the row is overwritten and committed, status 200.  The
commit is fallible: `email` is the primary key, whose uniqueness the schema
enforces, so when the new email collides with a different existing row the
UPDATE raises an uncaught IntegrityError — modelled, like the other uncaught
exceptions, by `Except.error`. -/
def update_user (authEmail pathEmail : String) (body : ReqBody) (db : DB) :
    Except Unit (Response × DB) :=
  match validate_user_access authEmail pathEmail with
  | some r => .ok (r, db)
  | none =>
    match findUser db pathEmail with
    | none =>
      .ok ({ status := 404,
             body := .obj
               [("message", .str "User not found"), ("email", .str pathEmail)] },
           db)
    | some _ =>
      match bodyEmail body with
      | none => .error ()
      | some newEmail =>
        if newEmail != pathEmail && (findUser db newEmail).isSome then
          .error ()
        else
          .ok ({ status := 200,
                 body := .obj [("message", .str "User updated successfully")] },
               { users := replaceFirst db.users pathEmail newEmail })

/-- Handler `delete_user` (`DELETE /users/<email>`): ownership check, then 404 if
the row is absent, else deletes the row and commits, status 200. -/
def delete_user (authEmail pathEmail : String) (db : DB) : Response × DB :=
  match validate_user_access authEmail pathEmail with
  | some r => (r, db)
  | none =>
    match findUser db pathEmail with
    | none =>
      ({ status := 404,
         body := .obj [("message", .str "User not found"), ("email", .str pathEmail)] },
       db)
    | some _ =>
      ({ status := 200, body := .obj [("message", .str "User deleted successfully")] },
       { users := db.users.erase pathEmail })

/-- Handler `get_users` (`GET /users`): all rows, rendered as `{email}` objects. -/
def get_users (db : DB) : Response :=
  { status := 200,
    body := .arr (db.users.map (fun u => .obj [("email", .str u)])) }

/-!
Test-harness cleanup (`TestUtils.clear_database` in `src/backend/tests/utils.py`).
The five ORM tables and their foreign keys, per the data model of the spec (§3):
`UserWord.user_id → User.email`, `UserWord.word_id → Word.word_id`,
`Word.wordset_id → Wordset.wordset_id`; `RecallHistory` is modelled from the
spec, which only gives its place in the dependency chain
(`RecallHistory → UserWord`), as a row referencing a `UserWord` composite key.
-/

/-- A `Wordset` row. -/
structure WordsetRow where
  wordset_id : Nat
deriving Repr, DecidableEq

/-- A `Word` row: `wordset_id` is a foreign key into `Wordset`. -/
structure WordRow where
  word_id : Nat
  wordset_id : Nat
deriving Repr, DecidableEq

/-- A `UserWord` row: `user_id` references `User.email`, `word_id`
references `Word.word_id`. -/
structure UserWordRow where
  user_id : String
  word_id : Nat
  is_included : Bool
  recall_state : Int
deriving Repr, DecidableEq

/-- Modelled from the spec: the `RecallHistory` schema is not shown; §3
places it at the head of the dependency chain, referencing the composite
key of `UserWord`. -/
structure RecallHistoryRow where
  user_id : String
  word_id : Nat
deriving Repr, DecidableEq

/-- The five tables cleared by `clear_database`. -/
structure FullState where
  recallHistory : List RecallHistoryRow
  userWords : List UserWordRow
  words : List WordRow
  wordsets : List WordsetRow
  users : List String
deriving Repr, DecidableEq

/-- The state with every table empty. -/
def FullState.empty : FullState := ⟨[], [], [], [], []⟩

/-- The five tables, as targets of a bulk delete. -/
inductive Table where
  | recallHistory
  | userWord
  | word
  | wordset
  | user
deriving Repr, DecidableEq

/-- Does some remaining row hold a foreign key into a row of table `t`
still present in `s`?  Deleting all of `t` then violates a constraint. -/
def referencedInto (s : FullState) (t : Table) : Bool :=
  match t with
  | .user =>
    s.userWords.any (fun uw => s.users.contains uw.user_id)
  | .word =>
    s.userWords.any (fun uw => s.words.any (fun w => w.word_id == uw.word_id))
  | .wordset =>
    s.words.any (fun w => s.wordsets.any (fun ws => ws.wordset_id == w.wordset_id))
  | .userWord =>
    s.recallHistory.any (fun rh =>
      s.userWords.any (fun uw => uw.user_id == rh.user_id && uw.word_id == rh.word_id))
  | .recallHistory => false

/-- `db.session.query(T).delete()`: empties table `t`, or fails (`none`)
when a remaining row still references a row being deleted. -/
def deleteAll (t : Table) (s : FullState) : Option FullState :=
  if referencedInto s t then none
  else
    some (match t with
      | .recallHistory => { s with recallHistory := [] }
      | .userWord => { s with userWords := [] }
      | .word => { s with words := [] }
      | .wordset => { s with wordsets := [] }
      | .user => { s with users := [] })

/-- The order in which `TestUtils.clear_database` issues its bulk deletes,
read off the source, before its single `db.session.commit()`. -/
def clearDeleteOrder : List Table :=
  [.recallHistory, .userWord, .word, .wordset, .user]

/-- `TestUtils.clear_database`: the five bulk deletes in source order,
failing if any of them raises a foreign-key violation. -/
def clear_database (s : FullState) : Option FullState :=
  clearDeleteOrder.foldlM (fun st t => deleteAll t st) s

/-- The foreign-key dependency edges: `fkDependsOn t₁ t₂` holds when table
`t₁` holds a foreign key into table `t₂`. -/
def fkDependsOn : Table → Table → Bool
  | .userWord, .user => true
  | .userWord, .word => true
  | .word, .wordset => true
  | .recallHistory, .userWord => true
  | _, _ => false

/-- The fixture chain built by `TestUtils.create_test_userword` (a user, a
wordset, a word in it, a userword linking them), extended with one
`RecallHistory` row, populating all five tables. -/
def fixtureChain (e : String) (wsId wId : Nat) : FullState :=
  { recallHistory := [⟨e, wId⟩]
    userWords := [⟨e, wId, true, 1⟩]
    words := [⟨wId, wsId⟩]
    wordsets := [⟨wsId⟩]
    users := [e] }

/-!
Helper lemmas shared by the claim theorems.
-/

/-- Lookup fails exactly when no row carries that email. -/
theorem findUser_eq_none_iff (db : DB) (e : String) :
    findUser db e = none ↔ e ∉ db.users := by
  simp only [findUser, List.find?_eq_none, beq_iff_eq]
  constructor
  · intro h he
    exact h e he rfl
  · intro h x hx hxe
    exact h (hxe ▸ hx)

/-- After appending a fresh row, lookup finds exactly that row. -/
theorem findUser_append_self (db : DB) (e : String)
    (h : findUser db e = none) :
    findUser ⟨db.users ++ [e]⟩ e = some e := by
  unfold findUser at h ⊢
  rw [List.find?_append, h]
  simp

/-- Overwriting the first occurrence of `old` with `new` makes `new` a
member, provided `old` was one. -/
theorem mem_replaceFirst {l : List String} {old : String} (new : String)
    (h : old ∈ l) : new ∈ replaceFirst l old new := by
  induction l with
  | nil => simp at h
  | cons x xs ih =>
    unfold replaceFirst
    by_cases hx : x = old
    · simp [hx]
    · have hb : (x == old) = false := by simp [hx]
      simp [hb]
      rcases List.mem_cons.mp h with h' | h'
      · exact absurd h'.symm hx
      · exact Or.inr (ih h')

/-!
The claims.
-/

/-- C1: on `get_user`, `update_user` and `delete_user`, when the
authenticated email differs from the path email, the handler returns the
403 rejection, for every database state — so regardless of whether a row
with the target email exists, the ownership check deciding the outcome
before any lookup could. -/
theorem C1_ownership_mismatch_403 (a p : String) (body : ReqBody) (db : DB)
    (h : a ≠ p) :
    (get_user a p db).1.status = 403 ∧
    update_user a p body db =
      .ok ({ status := 403, body := .obj [("message", .str "Unauthorized")] }, db) ∧
    (delete_user a p db).1.status = 403 := by
  have hb : (a != p) = true := bne_iff_ne.mpr h
  refine ⟨?_, ?_, ?_⟩ <;>
    simp [get_user, update_user, delete_user, validate_user_access, hb]

/-- Witness for C1, at an input where the target row does exist. -/
theorem C1_ownership_mismatch_403_witness :
    ("alice" : String) ≠ "bob" ∧
    ((get_user "alice" "bob" ⟨["bob"]⟩).1.status = 403 ∧
     update_user "alice" "bob" (some [("email", "bob")]) ⟨["bob"]⟩ =
       .ok ({ status := 403, body := .obj [("message", .str "Unauthorized")] }, ⟨["bob"]⟩) ∧
     (delete_user "alice" "bob" ⟨["bob"]⟩).1.status = 403) :=
  ⟨by decide,
   C1_ownership_mismatch_403 "alice" "bob" (some [("email", "bob")]) ⟨["bob"]⟩ (by decide)⟩

/-- C2: a self-create with no prior row inserts it and returns 201; the
identical second call returns 200 with the "already exists" message (never
409 or 500), leaves the table untouched, and exactly one row with that
email remains. -/
theorem C2_create_twice_idempotent (e : String) (db : DB)
    (h : findUser db e = none) :
    create_user e (some [("email", e)]) db =
      .ok ({ status := 201, body := .obj [("message", .str "User created successfully")] },
           ⟨db.users ++ [e]⟩) ∧
    create_user e (some [("email", e)]) ⟨db.users ++ [e]⟩ =
      .ok ({ status := 200, body := .obj [("message", .str "User already exists")] },
           ⟨db.users ++ [e]⟩) ∧
    (db.users ++ [e]).count e = 1 := by
  have hmem : e ∉ db.users := (findUser_eq_none_iff db e).mp h
  refine ⟨?_, ?_, ?_⟩
  · simp [create_user, bodyEmail, h]
  · have h2 := findUser_append_self db e h
    simp [create_user, bodyEmail, h2]
  · simp [List.count_append, List.count_eq_zero.mpr hmem]

/-- Witness for C2 on the empty table. -/
theorem C2_create_twice_idempotent_witness :
    findUser ⟨[]⟩ "alice" = none ∧
    (create_user "alice" (some [("email", "alice")]) ⟨[]⟩ =
       .ok ({ status := 201, body := .obj [("message", .str "User created successfully")] },
            ⟨[] ++ ["alice"]⟩) ∧
     create_user "alice" (some [("email", "alice")]) ⟨[] ++ ["alice"]⟩ =
       .ok ({ status := 200, body := .obj [("message", .str "User already exists")] },
            ⟨[] ++ ["alice"]⟩) ∧
    ([] ++ ["alice"]).count "alice" = 1) :=
  ⟨by decide, C2_create_twice_idempotent "alice" ⟨[]⟩ (by decide)⟩

/-- C3: after a self-create on a table with no row for that email, a
get-by-email as the same identity returns 200 with exactly that email. -/
theorem C3_create_then_get (e : String) (db : DB)
    (h : findUser db e = none) :
    create_user e (some [("email", e)]) db =
      .ok ({ status := 201, body := .obj [("message", .str "User created successfully")] },
           ⟨db.users ++ [e]⟩) ∧
    get_user e e ⟨db.users ++ [e]⟩ =
      ({ status := 200, body := .obj [("email", .str e)] }, ⟨db.users ++ [e]⟩) := by
  refine ⟨?_, ?_⟩
  · simp [create_user, bodyEmail, h]
  · have h2 := findUser_append_self db e h
    simp [get_user, validate_user_access, h2]

/-- Witness for C3 on the empty table. -/
theorem C3_create_then_get_witness :
    findUser ⟨[]⟩ "alice" = none ∧
    (create_user "alice" (some [("email", "alice")]) ⟨[]⟩ =
       .ok ({ status := 201, body := .obj [("message", .str "User created successfully")] },
            ⟨[] ++ ["alice"]⟩) ∧
     get_user "alice" "alice" ⟨[] ++ ["alice"]⟩ =
       ({ status := 200, body := .obj [("email", .str "alice")] }, ⟨[] ++ ["alice"]⟩)) :=
  ⟨by decide, C3_create_then_get "alice" ⟨[]⟩ (by decide)⟩

/-- C4: a create whose body email differs from the authenticated email is
rejected with 403 and the database is returned unchanged, for every
database state — in particular whether or not a row with the body email
already exists. -/
theorem C4_create_mismatch_403 (a e : String) (body : ReqBody) (db : DB)
    (hb : bodyEmail body = some e) (h : a ≠ e) :
    create_user a body db =
      .ok ({ status := 403,
             body := .obj [("message", .str "Unauthorized: You can only create yourself")] },
           db) := by
  have hne : (a != e) = true := bne_iff_ne.mpr h
  simp [create_user, hb, hne]

/-- Witness for C4, at an input where a row with the body email exists. -/
theorem C4_create_mismatch_403_witness :
    bodyEmail (some [("email", "bob")]) = some "bob" ∧
    ("alice" : String) ≠ "bob" ∧
    create_user "alice" (some [("email", "bob")]) ⟨["bob"]⟩ =
      .ok ({ status := 403,
             body := .obj [("message", .str "Unauthorized: You can only create yourself")] },
           ⟨["bob"]⟩) :=
  ⟨by decide, by decide,
   C4_create_mismatch_403 "alice" "bob" (some [("email", "bob")]) ⟨["bob"]⟩
     (by decide) (by decide)⟩

/-- C5: get, update and delete targeting the authenticated email itself
(ownership passes) but hitting no row return 404 with the not-found
message and the requested email echoed back, the database untouched. -/
theorem C5_missing_row_404 (e : String) (body : ReqBody) (db : DB)
    (h : findUser db e = none) :
    get_user e e db =
      ({ status := 404,
         body := .obj [("message", .str "User not found"), ("email", .str e)] }, db) ∧
    update_user e e body db =
      .ok ({ status := 404,
             body := .obj [("message", .str "User not found"), ("email", .str e)] }, db) ∧
    delete_user e e db =
      ({ status := 404,
         body := .obj [("message", .str "User not found"), ("email", .str e)] }, db) := by
  refine ⟨?_, ?_, ?_⟩ <;>
    simp [get_user, update_user, delete_user, validate_user_access, h]

/-- Witness for C5 on a nonempty table missing the target email. -/
theorem C5_missing_row_404_witness :
    findUser ⟨["bob"]⟩ "alice" = none ∧
    (get_user "alice" "alice" ⟨["bob"]⟩ =
       ({ status := 404,
          body := .obj [("message", .str "User not found"), ("email", .str "alice")] },
        ⟨["bob"]⟩) ∧
     update_user "alice" "alice" none ⟨["bob"]⟩ =
       .ok ({ status := 404,
              body := .obj [("message", .str "User not found"), ("email", .str "alice")] },
            ⟨["bob"]⟩) ∧
     delete_user "alice" "alice" ⟨["bob"]⟩ =
       ({ status := 404,
          body := .obj [("message", .str "User not found"), ("email", .str "alice")] },
        ⟨["bob"]⟩)) :=
  ⟨by decide, C5_missing_row_404 "alice" none ⟨["bob"]⟩ (by decide)⟩

/-- C6: `get_users` answers 200 with an array holding, in table order, one
`{email}` object per row — hence of length the row count, with no
ownership filtering. -/
theorem C6_get_users_enumerates (db : DB) :
    (get_users db).status = 200 ∧
    (get_users db).body = Json.arr (db.users.map (fun u => Json.obj [("email", Json.str u)])) ∧
    (db.users.map (fun u => Json.obj [("email", Json.str u)])).length = db.users.length := by
  refine ⟨rfl, rfl, by simp⟩

/-- C7 counterexample: renaming the own row onto the email of another
existing row does not return 200 — the commit violates the `User.email`
primary-key uniqueness and the UPDATE raises an uncaught IntegrityError. -/
theorem C7_counterexample_duplicate_pk :
    update_user "alice" "alice" (some [("email", "bob")]) ⟨["alice", "bob"]⟩ =
      .error () := rfl

/-- C7 (amended): an update aimed at the authenticated email itself,
hitting an existing row, overwrites the `email` field of that row with the
body email — the primary key may change, and the new email is then a
member of the table — commits, and returns 200, provided the new email
does not collide with a different existing row; on such a collision the
commit raises an uncaught IntegrityError instead. -/
theorem C7_update_overwrites_email (e new : String) (body : ReqBody) (db : DB)
    (hb : bodyEmail body = some new) (h : e ∈ db.users)
    (hcol : new = e ∨ findUser db new = none) :
    update_user e e body db =
      .ok ({ status := 200, body := .obj [("message", .str "User updated successfully")] },
           ⟨replaceFirst db.users e new⟩) ∧
    new ∈ replaceFirst db.users e new := by
  have hf : ∃ u, findUser db e = some u := by
    apply Option.isSome_iff_exists.mp
    unfold findUser
    rw [List.find?_isSome]
    exact ⟨e, h, by simp⟩
  rcases hf with ⟨u, hu⟩
  refine ⟨?_, mem_replaceFirst new h⟩
  rcases hcol with hcol | hcol
  · simp [update_user, validate_user_access, hu, hb, hcol]
  · simp [update_user, validate_user_access, hu, hb, hcol]

/-- Witness for the amended C7: the row "alice" is renamed to the fresh
email "carol". -/
theorem C7_update_overwrites_email_witness :
    bodyEmail (some [("email", "carol")]) = some "carol" ∧
    ("alice" : String) ∈ (DB.mk ["bob", "alice"]).users ∧
    ("carol" = "alice" ∨ findUser ⟨["bob", "alice"]⟩ "carol" = none) ∧
    (update_user "alice" "alice" (some [("email", "carol")]) ⟨["bob", "alice"]⟩ =
       .ok ({ status := 200, body := .obj [("message", .str "User updated successfully")] },
            ⟨replaceFirst ["bob", "alice"] "alice" "carol"⟩) ∧
     "carol" ∈ replaceFirst ["bob", "alice"] "alice" "carol") :=
  ⟨by decide, by decide, by decide,
   C7_update_overwrites_email "alice" "carol" (some [("email", "carol")]) ⟨["bob", "alice"]⟩
     (by decide) (by decide) (by decide)⟩

/-- C8: `clear_database` issues its bulk deletes exactly in the order
RecallHistory, UserWord, Word, Wordset, User; every foreign-key dependency
is deleted strictly before its target table; and the run raises no
foreign-key violation from any state — in particular from the populated
fixture chain — emptying all five tables before the single commit. -/
theorem C8_clear_database_fk_order :
    clearDeleteOrder = [.recallHistory, .userWord, .word, .wordset, .user] ∧
    (∀ t₁ t₂ : Table, fkDependsOn t₁ t₂ = false ∨
       clearDeleteOrder.indexOf t₁ < clearDeleteOrder.indexOf t₂) ∧
    (∀ s : FullState, clear_database s = some FullState.empty) ∧
    (∀ (e : String) (wsId wId : Nat),
       clear_database (fixtureChain e wsId wId) = some FullState.empty) := by
  refine ⟨rfl, ?_, ?_, ?_⟩
  · intro t₁ t₂
    cases t₁ <;> cases t₂ <;> decide
  · intro s
    cases s
    rfl
  · intro e wsId wId
    rfl

/-- The frame condition of a rejection: a 403 or 404 response must leave
the `User` table exactly as it was — no row added, modified or deleted,
and no commit issued before the return. -/
def dbUnchangedOnReject (res : Response × DB) (db : DB) : Bool :=
  if res.1.status == 403 || res.1.status == 404 then res.2.users == db.users else true

/-- The frame condition lifted to handlers that may raise: an uncaught
exception is outside the scope of the condition. -/
def exceptDbUnchangedOnReject (x : Except Unit (Response × DB)) (db : DB) : Bool :=
  match x with
  | .error _ => true
  | .ok res => dbUnchangedOnReject res db

/-- C9: whenever any of the four user handlers answers 403 or 404, the
database state it returns is the one it was given. -/
theorem C9_reject_frame (a p : String) (body : ReqBody) (db : DB) :
    exceptDbUnchangedOnReject (create_user a body db) db = true ∧
    dbUnchangedOnReject (get_user a p db) db = true ∧
    exceptDbUnchangedOnReject (update_user a p body db) db = true ∧
    dbUnchangedOnReject (delete_user a p db) db = true := by
  refine ⟨?_, ?_, ?_, ?_⟩
  · cases hbe : bodyEmail body with
    | none => simp [exceptDbUnchangedOnReject, create_user, hbe]
    | some de =>
      by_cases hde : a = de
      · by_cases hf : (findUser db de).isSome <;>
          simp [exceptDbUnchangedOnReject, create_user, hbe, hde, hf, dbUnchangedOnReject]
      · have hb : (a != de) = true := bne_iff_ne.mpr hde
        simp [exceptDbUnchangedOnReject, create_user, hbe, hb, dbUnchangedOnReject]
  · by_cases hap : a = p
    · cases hf : findUser db p with
      | none => simp [dbUnchangedOnReject, get_user, validate_user_access, hap, hf]
      | some u => simp [dbUnchangedOnReject, get_user, validate_user_access, hap, hf]
    · have hb : (a != p) = true := bne_iff_ne.mpr hap
      simp [dbUnchangedOnReject, get_user, validate_user_access, hb]
  · by_cases hap : a = p
    · cases hf : findUser db p with
      | none =>
        simp [exceptDbUnchangedOnReject, update_user, validate_user_access, hap, hf,
          dbUnchangedOnReject]
      | some u =>
        cases hbe : bodyEmail body with
        | none =>
          simp [exceptDbUnchangedOnReject, update_user, validate_user_access, hap, hf, hbe]
        | some newEmail =>
          cases hcol : (newEmail != p && (findUser db newEmail).isSome) <;>
            simp [exceptDbUnchangedOnReject, update_user, validate_user_access, hap, hf, hbe,
              hcol, dbUnchangedOnReject]
    · have hb : (a != p) = true := bne_iff_ne.mpr hap
      simp [exceptDbUnchangedOnReject, update_user, validate_user_access, hb,
        dbUnchangedOnReject]
  · by_cases hap : a = p
    · cases hf : findUser db p with
      | none => simp [dbUnchangedOnReject, delete_user, validate_user_access, hap, hf]
      | some u => simp [dbUnchangedOnReject, delete_user, validate_user_access, hap, hf]
    · have hb : (a != p) = true := bne_iff_ne.mpr hap
      simp [dbUnchangedOnReject, delete_user, validate_user_access, hb]

/-- C10 counterexample: an update request whose JSON body is not an object
(so it has no "email" key), aimed by its owner at an absent row, returns
the 404 HTTP response — no exception escapes, contradicting the claim that
every such request raises. -/
theorem C10_counterexample_update_404 :
    update_user "alice" "alice" none ⟨[]⟩ =
      .ok ({ status := 404,
             body := .obj [("message", .str "User not found"), ("email", .str "alice")] },
           ⟨[]⟩) := rfl

/-- C10 (amended): `create_user` reads the body "email" field
unconditionally, so a body without it always raises an uncaught exception,
whatever the database state; `update_user` reads the body only after the
ownership check and the existence lookup succeed, so such a body raises
exactly on requests that pass both — on an absent row the 404 response is
returned instead, the body never read. -/
theorem C10_body_email_precondition (a p : String) (body : ReqBody)
    (db dbAbsent : DB)
    (hb : bodyEmail body = none)
    (hp : p ∈ db.users)
    (ha : findUser dbAbsent p = none) :
    create_user a body db = .error () ∧
    create_user a body dbAbsent = .error () ∧
    update_user p p body db = .error () ∧
    update_user p p body dbAbsent =
      .ok ({ status := 404,
             body := .obj [("message", .str "User not found"), ("email", .str p)] },
           dbAbsent) := by
  have hf : ∃ u, findUser db p = some u := by
    apply Option.isSome_iff_exists.mp
    unfold findUser
    rw [List.find?_isSome]
    exact ⟨p, hp, by simp⟩
  rcases hf with ⟨u, hu⟩
  refine ⟨?_, ?_, ?_, ?_⟩
  · simp [create_user, hb]
  · simp [create_user, hb]
  · simp [update_user, validate_user_access, hu, hb]
  · simp [update_user, validate_user_access, ha]

/-- Witness for the amended C10. -/
theorem C10_body_email_precondition_witness :
    bodyEmail (none : ReqBody) = none ∧
    ("alice" : String) ∈ (DB.mk ["alice"]).users ∧
    findUser ⟨[]⟩ "alice" = none ∧
    (create_user "bob" none ⟨["alice"]⟩ = .error () ∧
     create_user "bob" none ⟨[]⟩ = .error () ∧
     update_user "alice" "alice" none ⟨["alice"]⟩ = .error () ∧
     update_user "alice" "alice" none ⟨[]⟩ =
       .ok ({ status := 404,
              body := .obj [("message", .str "User not found"), ("email", .str "alice")] },
            ⟨[]⟩)) :=
  ⟨rfl, by decide, by decide,
   C10_body_email_precondition "bob" "alice" none ⟨["alice"]⟩ ⟨[]⟩ rfl (by decide) (by decide)⟩
